import Mathlib

/-!
Shallow embedding of src/packages/react-app/src/App.jsx of the
yournian/web3-challenge repository, with theorems settling the
specification claims about that file.

The file is React UI glue; the embedding models its observable,
deterministic content: the provider objects instantiated at module load,
the selection of the mainnet provider, the wallet-connect callback, the
derivation of address and chain id from component state, the role-fetch
effect keyed on the address (its HTTP request and the role it stores),
the flash-message actions, and the two wallet-event handlers. External
hooks (useUserProvider, useUserAddress) are universally quantified
functions; the outcome of the awaited HTTP GET is an oracle returning
either response data or a thrown error.
-/

namespace Web3App

/-- JavaScript truthiness of an optional string value: undefined and the
empty string are falsy, every other string is truthy. -/
def strTruthy : Option String → Bool
  | none => false
  | some s => s ≠ ""

/-- Network object attached to an ethers provider once network detection
has finished; it carries the chain id. -/
structure Network where
  chainId : Nat
deriving Repr, DecidableEq

/-- Observable state of a JSON-RPC provider object: its connection URL
and the optional detected network held in its private field. -/
structure ProviderObj where
  url : String
  _network : Option Network := none
deriving Repr, DecidableEq

/-- URL of the scaffold-eth RPC endpoint (App.jsx line 31). -/
def scaffoldEthUrl : String := "https://rpc.scaffoldeth.io:48544"

/-- Base of the Infura mainnet URL (App.jsx line 32); the INFURA_ID
constant imported from ./constants is appended to it. -/
def infuraUrlBase : String := "https://mainnet.infura.io/v3/"

/-- URL chosen for the local provider (App.jsx line 38): the
REACT_APP_PROVIDER environment variable when truthy, otherwise
localProviderUrl, which is targetNetwork.rpcUrl. -/
def localProviderUrlFromEnv (envReactAppProvider : Option String)
    (localProviderUrl : String) : String :=
  if strTruthy envReactAppProvider then envReactAppProvider.getD ""
  else localProviderUrl

/-- The StaticJsonRpcProvider objects instantiated at module load
(App.jsx lines 31, 32 and 40), in source order: scaffoldEthProvider,
mainnetInfura and localProvider. Each starts without a detected
network. -/
def moduleLoadProviders (infuraId : String) (envReactAppProvider : Option String)
    (targetRpcUrl : String) : List ProviderObj :=
  [ { url := scaffoldEthUrl },
    { url := infuraUrlBase ++ infuraId },
    { url := localProviderUrlFromEnv envReactAppProvider targetRpcUrl } ]

/-- Shape of the USER_ROLES object (App.jsx lines 45-49). -/
structure UserRolesObj where
  admin : String
  anonymous : String
  registered : String
deriving Repr, DecidableEq

/-- The USER_ROLES constant of App.jsx. -/
def USER_ROLES : UserRolesObj :=
  { admin := "user_role.administrator"
    anonymous := "user_role.anonymous"
    registered := "user_role.registered" }

/-- An HTTP request as assembled by the axios call: method, URL, query
parameters and optional body. -/
structure HttpRequest where
  method : String
  url : String
  params : List (String × String)
  body : Option String
deriving Repr, DecidableEq

/-- The request issued by fetchUserData (App.jsx lines 120-122): a GET
to serverUrl ++ "/user" carrying the address as its only query
parameter and no body. -/
def userGetRequest (serverUrl address : String) : HttpRequest :=
  { method := "GET"
    url := serverUrl ++ "/user"
    params := [("address", address)]
    body := none }

/-- Data of a successful /user response; isAdmin records the truthiness
of the isAdmin field of the response data. -/
structure UserData where
  isAdmin : Bool
deriving Repr, DecidableEq

/-- Role stored by fetchUserData once the awaited GET settles (App.jsx
lines 119-126): the administrator role when isAdmin is truthy, the
registered role otherwise, and the anonymous role when the request
throws. The oracle gives the outcome of the GET for each address. -/
def fetchUserData (oracle : String → Except Unit UserData) (address : String) : String :=
  match oracle address with
  | Except.ok d => if d.isAdmin then USER_ROLES.admin else USER_ROLES.registered
  | Except.error _ => USER_ROLES.anonymous

/-- Observable state of the role machinery: the current userRole and the
backend requests issued so far, in order. -/
structure RoleState where
  userRole : String
  issuedRequests : List HttpRequest
deriving Repr, DecidableEq

/-- Initial state: useState(USER_ROLES.anonymous) and no request issued
yet (App.jsx line 114). -/
def initialRoleState : RoleState :=
  { userRole := USER_ROLES.anonymous, issuedRequests := [] }

/-- One run of the effect keyed on the address (App.jsx lines 116-132):
when the address is truthy the GET is issued and the role is updated
from its outcome; otherwise nothing happens. -/
def roleEffect (serverUrl : String) (oracle : String → Except Unit UserData)
    (address : Option String) (st : RoleState) : RoleState :=
  if strTruthy address then
    { userRole := fetchUserData oracle (address.getD "")
      issuedRequests := st.issuedRequests ++ [userGetRequest serverUrl (address.getD "")] }
  else st

/-- A whole run of the component: the address effect fires once for each
successive value taken by its address dependency. -/
def runRoleEffects (serverUrl : String) (oracle : String → Except Unit UserData)
    (addrs : List (Option String)) : RoleState :=
  addrs.foldl (fun st a => roleEffect serverUrl oracle a st) initialRoleState

/-- Web3Provider wrapper: new Web3Provider(provider) stores the raw
provider object it is built from. -/
structure Web3Provider (α : Type) where
  provider : α
deriving Repr, DecidableEq

/-- The piece of component state written by loadWeb3Modal. -/
structure ConnState (α : Type) where
  injectedProvider : Option (Web3Provider α)
deriving Repr, DecidableEq

/-- loadWeb3Modal (App.jsx lines 102-106): awaits web3Modal.connect()
and stores a Web3Provider wrapping the connected provider into the
injectedProvider component state. -/
def loadWeb3Modal {α : Type} (connected : α) (st : ConnState α) : ConnState α :=
  { st with injectedProvider := some { provider := connected } }

/-- The values derived from provider state (App.jsx lines 82-87). -/
structure ConnectionDerivation where
  userProvider : Option ProviderObj
  address : Option String
  selectedChainId : Option Nat
deriving Repr, DecidableEq

/-- Derivation of userProvider, address and selectedChainId (App.jsx
lines 82-87), parameterised by the external hooks useUserProvider and
useUserAddress. selectedChainId mirrors the short-circuit chain
userProvider, then its network field, then the chain id: it is absent
(falsy) unless both userProvider and its network are present. -/
def deriveConnection {α : Type}
    (useUserProviderF : Option (Web3Provider α) → Option ProviderObj)
    (useUserAddressF : Option ProviderObj → Option String)
    (injectedProvider : Option (Web3Provider α)) : ConnectionDerivation :=
  let userProvider := useUserProviderF injectedProvider
  { userProvider := userProvider
    address := useUserAddressF userProvider
    selectedChainId :=
      match userProvider with
      | none => none
      | some p =>
        match p._network with
        | none => none
        | some n => some n.chainId }

/-- Selection of the mainnet provider (App.jsx line 77): the scaffold
eth provider when it is truthy and carries a detected network, the
Infura provider otherwise. -/
def selectMainnetProvider (scaffoldEthProvider : Option ProviderObj)
    (mainnetInfura : ProviderObj) : ProviderObj :=
  match scaffoldEthProvider with
  | some p => if p._network.isSome then p else mainnetInfura
  | none => mainnetInfura

/-- The two browser wallet events handled at the bottom of App.jsx. -/
inductive WalletEvent
  | chainChanged
  | accountsChanged
deriving Repr, DecidableEq

/-- Whether an incoming wallet event schedules a page reload (App.jsx
lines 187-203): the handlers exist only when window.ethereum is
present, and each of them reloads only when web3Modal.cachedProvider is
truthy. -/
def walletEventReloads (hasEthereum cachedProvider : Bool) (e : WalletEvent) : Bool :=
  if hasEthereum then
    match e with
    | WalletEvent.chainChanged => cachedProvider
    | WalletEvent.accountsChanged => cachedProvider
  else false

/-- A flash message entry as stored in the flashMessages state. -/
structure FlashMessage where
  status : String
  text : String
deriving Repr, DecidableEq

/-- flashMessage.success (App.jsx lines 137-138): the updater passed to
setFlashMessages, applied to the previous list. -/
def flashMessageSuccess (message : String)
    (prevFlashMessages : List FlashMessage) : List FlashMessage :=
  prevFlashMessages ++ [{ status := "success", text := message }]

/-- flashMessage.error (App.jsx lines 139-140): the updater passed to
setFlashMessages, applied to the previous list. -/
def flashMessageError (message : String)
    (prevFlashMessages : List FlashMessage) : List FlashMessage :=
  prevFlashMessages ++ [{ status := "error", text := message }]

/-! Helper lemmas about runs of the address effect. -/

/-- Every request present after folding the address effect over a run
was either present at the start or is a /user GET for some address. -/
lemma mem_issuedRequests_foldl (serverUrl : String)
    (oracle : String → Except Unit UserData) (addrs : List (Option String))
    (st : RoleState) (req : HttpRequest)
    (h : req ∈ (addrs.foldl (fun s a => roleEffect serverUrl oracle a s) st).issuedRequests) :
    req ∈ st.issuedRequests ∨ ∃ a, req = userGetRequest serverUrl a := by
  induction addrs generalizing st with
  | nil => exact Or.inl h
  | cons a rest ih =>
    rcases ih (roleEffect serverUrl oracle a st) h with h1 | h2
    · unfold roleEffect at h1
      by_cases ht : strTruthy a = true
      · simp only [ht, if_true, List.mem_append, List.mem_singleton] at h1
        rcases h1 with h1 | h1
        · exact Or.inl h1
        · exact Or.inr ⟨a.getD "", h1⟩
      · rw [if_neg (by simpa using ht)] at h1
        exact Or.inl h1
    · exact h2.elim fun a ha => Or.inr ⟨a, ha⟩

/-- Folding the address effect appends one request per truthy address in
the run. -/
lemma length_issuedRequests_foldl (serverUrl : String)
    (oracle : String → Except Unit UserData) (addrs : List (Option String))
    (st : RoleState) :
    ((addrs.foldl (fun s a => roleEffect serverUrl oracle a s) st).issuedRequests).length
      = st.issuedRequests.length + (addrs.filter (fun a => strTruthy a)).length := by
  induction addrs generalizing st with
  | nil => simp
  | cons a rest ih =>
    rw [List.foldl_cons, ih]
    by_cases ht : strTruthy a = true
    · simp only [roleEffect, ht, if_true, List.filter_cons, List.length_append,
        List.length_cons, List.length_nil]
      omega
    · have ht' : strTruthy a = false := by simpa using ht
      simp [roleEffect, ht', List.filter_cons]

/-- The role computed after one fetch is always one of the three
USER_ROLES values. -/
lemma fetchUserData_mem_roles (oracle : String → Except Unit UserData) (a : String) :
    fetchUserData oracle a
      ∈ [USER_ROLES.anonymous, USER_ROLES.admin, USER_ROLES.registered] := by
  unfold fetchUserData
  cases oracle a with
  | ok d => cases hd : d.isAdmin <;> simp [hd]
  | error e => simp

/-- The userRole obtained by folding the address effect stays among the
three USER_ROLES values. -/
lemma userRole_mem_roles_foldl (serverUrl : String)
    (oracle : String → Except Unit UserData) (addrs : List (Option String))
    (st : RoleState)
    (h : st.userRole ∈ [USER_ROLES.anonymous, USER_ROLES.admin, USER_ROLES.registered]) :
    (addrs.foldl (fun s a => roleEffect serverUrl oracle a s) st).userRole
      ∈ [USER_ROLES.anonymous, USER_ROLES.admin, USER_ROLES.registered] := by
  induction addrs generalizing st with
  | nil => exact h
  | cons a rest ih =>
    refine ih (roleEffect serverUrl oracle a st) ?_
    unfold roleEffect
    by_cases ht : strTruthy a = true
    · simp only [ht, if_true]
      exact fetchUserData_mem_roles oracle (a.getD "")
    · rw [if_neg (by simpa using ht)]
      exact h

/-! Theorems settling the claims. -/

/-- C1: for every non-empty (truthy) wallet address the address effect
issues one HTTP GET to serverUrl ++ "/user" carrying that address as
the query parameter, and on a successful response the stored userRole
is the administrator role exactly when the isAdmin field of the
response data is truthy, and the registered role exactly otherwise. -/
theorem c1_role_fetch_and_classification (serverUrl : String)
    (oracle : String → Except Unit UserData) (a : String) (st : RoleState)
    (d : UserData) (ha : a ≠ "") (hd : oracle a = Except.ok d) :
    (roleEffect serverUrl oracle (some a) st).issuedRequests
        = st.issuedRequests ++ [userGetRequest serverUrl a]
      ∧ ((roleEffect serverUrl oracle (some a) st).userRole = USER_ROLES.admin
          ↔ d.isAdmin = true)
      ∧ ((roleEffect serverUrl oracle (some a) st).userRole = USER_ROLES.registered
          ↔ d.isAdmin = false) := by
  have ht : strTruthy (some a) = true := by simp [strTruthy, ha]
  refine ⟨by simp [roleEffect, ht], ?_, ?_⟩ <;>
    cases hAdmin : d.isAdmin <;>
      simp [roleEffect, ht, fetchUserData, hd, hAdmin, USER_ROLES]

/-- Witness for C1: a concrete truthy address, a state, and an oracle
answering with an administrator response. -/
theorem c1_role_fetch_and_classification_witness :
    (roleEffect "https://backend" (fun _ => Except.ok { isAdmin := true })
        (some "0xabc") initialRoleState).issuedRequests
        = initialRoleState.issuedRequests ++ [userGetRequest "https://backend" "0xabc"]
      ∧ ((roleEffect "https://backend" (fun _ => Except.ok { isAdmin := true })
            (some "0xabc") initialRoleState).userRole = USER_ROLES.admin
          ↔ ({ isAdmin := true } : UserData).isAdmin = true)
      ∧ ((roleEffect "https://backend" (fun _ => Except.ok { isAdmin := true })
            (some "0xabc") initialRoleState).userRole = USER_ROLES.registered
          ↔ ({ isAdmin := true } : UserData).isAdmin = false) :=
  c1_role_fetch_and_classification "https://backend"
    (fun _ => Except.ok { isAdmin := true }) "0xabc" initialRoleState
    { isAdmin := true } (by decide) rfl

/-- C2 counterexample: at module load the file instantiates three
StaticJsonRpcProvider objects (scaffoldEthProvider, mainnetInfura and
localProvider), not two. -/
theorem c2_counterexample :
    ¬ (moduleLoadProviders "infuraId0" none "http://localhost:8545").length = 2 := by
  decide

/-- C2 amended: module load instantiates exactly three JSON-RPC
provider objects; the URLs of the first two (the scaffold eth RPC and
the Infura mainnet URL built from INFURA_ID) do not depend on the
environment, while the third URL is the REACT_APP_PROVIDER environment
variable when truthy and targetNetwork.rpcUrl otherwise. -/
theorem c2_module_load_providers (infuraId targetRpcUrl : String)
    (env env₂ : Option String) (u : String) (hu : u ≠ "") :
    (moduleLoadProviders infuraId env targetRpcUrl).length = 3
      ∧ (moduleLoadProviders infuraId env targetRpcUrl).map ProviderObj.url
          = [scaffoldEthUrl, infuraUrlBase ++ infuraId,
              localProviderUrlFromEnv env targetRpcUrl]
      ∧ (moduleLoadProviders infuraId env targetRpcUrl).take 2
          = (moduleLoadProviders infuraId env₂ targetRpcUrl).take 2
      ∧ localProviderUrlFromEnv (some u) targetRpcUrl = u
      ∧ localProviderUrlFromEnv none targetRpcUrl = targetRpcUrl := by
  refine ⟨rfl, rfl, rfl, ?_, rfl⟩
  simp [localProviderUrlFromEnv, strTruthy, hu]

/-- Witness for C2 amended at concrete constants and environments. -/
theorem c2_module_load_providers_witness :
    (moduleLoadProviders "id0" (some "https://dai.poa.network") "http://localhost:8545").length = 3
      ∧ (moduleLoadProviders "id0" (some "https://dai.poa.network") "http://localhost:8545").map
            ProviderObj.url
          = [scaffoldEthUrl, infuraUrlBase ++ "id0",
              localProviderUrlFromEnv (some "https://dai.poa.network") "http://localhost:8545"]
      ∧ (moduleLoadProviders "id0" (some "https://dai.poa.network") "http://localhost:8545").take 2
          = (moduleLoadProviders "id0" none "http://localhost:8545").take 2
      ∧ localProviderUrlFromEnv (some "https://dai.poa.network") "http://localhost:8545"
          = "https://dai.poa.network"
      ∧ localProviderUrlFromEnv none "http://localhost:8545" = "http://localhost:8545" :=
  c2_module_load_providers "id0" "http://localhost:8545"
    (some "https://dai.poa.network") none "https://dai.poa.network" (by decide)

/-- C3: for every provider value returned by web3Modal.connect(),
loadWeb3Modal stores a Web3Provider wrapping that value into the
injectedProvider component state. -/
theorem c3_loadWeb3Modal_stores_wrapped_provider {α : Type} (p : α) (st : ConnState α) :
    (loadWeb3Modal p st).injectedProvider = some { provider := p } := rfl

/-- C4: address is computed from userProvider, which is itself derived
from injectedProvider, and selectedChainId is the chain id of the
network of userProvider when both are present and absent (falsy)
otherwise. -/
theorem c4_derived_address_and_chain_id {α : Type}
    (f : Option (Web3Provider α) → Option ProviderObj)
    (g : Option ProviderObj → Option String)
    (ip ip₂ : Option (Web3Provider α)) (p : ProviderObj) (n : Network)
    (h1 : f ip = some p) (h2 : p._network = some n)
    (h3 : (f ip₂).bind (fun q => q._network) = none) :
    (deriveConnection f g ip).userProvider = f ip
      ∧ (deriveConnection f g ip).address = g (f ip)
      ∧ (deriveConnection f g ip).selectedChainId = some n.chainId
      ∧ (deriveConnection f g ip₂).selectedChainId = none := by
  refine ⟨rfl, rfl, ?_, ?_⟩
  · simp [deriveConnection, h1, h2]
  · cases hf : f ip₂ with
    | none => simp [deriveConnection, hf]
    | some q =>
      have hq : q._network = none := by simpa [hf] using h3
      simp [deriveConnection, hf, hq]

/-- Concrete useUserProvider hook for the C4 witness: an injected
provider with a detected mainnet network when connected, a burner
provider without a detected network otherwise. -/
def witnessHookProvider : Option (Web3Provider Unit) → Option ProviderObj
  | some _ => some { url := "injected", _network := some { chainId := 1 } }
  | none => some { url := "burner", _network := none }

/-- Concrete useUserAddress hook for the C4 witness. -/
def witnessHookAddress : Option ProviderObj → Option String :=
  fun _ => some "0xabc"

/-- Witness for C4: concrete hooks, a connected state whose provider
carries network chain id 1, and a disconnected state without one. -/
theorem c4_derived_address_and_chain_id_witness :
    (deriveConnection witnessHookProvider witnessHookAddress
          (some { provider := () })).userProvider
        = witnessHookProvider (some { provider := () })
      ∧ (deriveConnection witnessHookProvider witnessHookAddress
            (some { provider := () })).address
        = witnessHookAddress (witnessHookProvider (some { provider := () }))
      ∧ (deriveConnection witnessHookProvider witnessHookAddress
            (some { provider := () })).selectedChainId
        = some ({ chainId := 1 } : Network).chainId
      ∧ (deriveConnection witnessHookProvider witnessHookAddress
            (none : Option (Web3Provider Unit))).selectedChainId
        = none :=
  c4_derived_address_and_chain_id witnessHookProvider witnessHookAddress
    (some { provider := () }) none
    { url := "injected", _network := some { chainId := 1 } } { chainId := 1 }
    rfl rfl rfl

/-- C5 counterexample: with window.ethereum present but no cached
provider in web3Modal, a chainChanged event does not reload the page,
so the events do not unconditionally reload it. -/
theorem c5_counterexample :
    ¬ ∀ (cachedProvider : Bool) (e : WalletEvent),
        walletEventReloads true cachedProvider e = true := by
  intro h
  exact absurd (h false WalletEvent.chainChanged) (by decide)

/-- C5 amended: when window.ethereum is present, each of the two wallet
events chainChanged and accountsChanged reloads the page exactly when
web3Modal.cachedProvider is truthy; without window.ethereum no handler
is installed and nothing reloads. -/
theorem c5_wallet_event_reload (hasEthereum cachedProvider : Bool) (e : WalletEvent) :
    walletEventReloads hasEthereum cachedProvider e = (hasEthereum && cachedProvider) := by
  cases hasEthereum <;> cases cachedProvider <;> cases e <;> rfl

/-- C6: every backend request issued by the file over any run is a GET,
to serverUrl ++ "/user", with no body and with the address as its only
query parameter. -/
theorem c6_only_user_get (serverUrl : String)
    (oracle : String → Except Unit UserData) (addrs : List (Option String))
    (req : HttpRequest)
    (h : req ∈ (runRoleEffects serverUrl oracle addrs).issuedRequests) :
    req.method = "GET" ∧ req.url = serverUrl ++ "/user" ∧ req.body = none
      ∧ req.params.map Prod.fst = ["address"] := by
  rcases mem_issuedRequests_foldl serverUrl oracle addrs initialRoleState req h with
    h0 | ⟨a, rfl⟩
  · simp [initialRoleState] at h0
  · exact ⟨rfl, rfl, rfl, rfl⟩

/-- Witness for C6 at a concrete run issuing one request. -/
theorem c6_only_user_get_witness :
    (userGetRequest "https://backend" "0xabc").method = "GET"
      ∧ (userGetRequest "https://backend" "0xabc").url = "https://backend" ++ "/user"
      ∧ (userGetRequest "https://backend" "0xabc").body = none
      ∧ (userGetRequest "https://backend" "0xabc").params.map Prod.fst = ["address"] :=
  c6_only_user_get "https://backend" (fun _ => Except.error ()) [some "0xabc"]
    (userGetRequest "https://backend" "0xabc") (by decide)

/-- C7 counterexample: a run in which the address takes two successive
truthy values (for example the burner address followed by the injected
wallet address) issues two role fetches, so the file is not limited to
one HTTP fetch over the whole run. -/
theorem c7_counterexample :
    ¬ (runRoleEffects "https://backend" (fun _ => Except.ok { isAdmin := false })
        [some "0xaaa", some "0xbbb"]).issuedRequests.length ≤ 1 := by
  decide

/-- C7 amended: the asynchronous activity of the file is the
event-driven wallet-connect call and the role fetches, fire-and-forget
and never cancelled; one role fetch is issued per run of the address
effect in which the address is truthy, hence at most one per address
value but possibly several over the whole run as the address changes. -/
theorem c7_fetch_count (serverUrl : String)
    (oracle : String → Except Unit UserData) (addrs : List (Option String)) :
    (runRoleEffects serverUrl oracle addrs).issuedRequests.length
      = (addrs.filter (fun a => strTruthy a)).length := by
  have h := length_issuedRequests_foldl serverUrl oracle addrs initialRoleState
  simpa [initialRoleState, runRoleEffects] using h

/-- C8: userRole starts as the anonymous role, over any run it stays
one of the three USER_ROLES values, an effect run with a falsy address
changes nothing (in particular no fetch is issued and the role keeps
its value), and a throwing GET sets the role back to anonymous. -/
theorem c8_role_invariants (serverUrl : String)
    (oracle : String → Except Unit UserData) (addrs : List (Option String))
    (aFalsy : Option String) (b : String) (st st₂ : RoleState) (e : Unit)
    (hf : strTruthy aFalsy = false) (hb : b ≠ "")
    (he : oracle b = Except.error e) :
    initialRoleState.userRole = USER_ROLES.anonymous
      ∧ (runRoleEffects serverUrl oracle addrs).userRole
          ∈ [USER_ROLES.anonymous, USER_ROLES.admin, USER_ROLES.registered]
      ∧ roleEffect serverUrl oracle aFalsy st = st
      ∧ (roleEffect serverUrl oracle (some b) st₂).userRole
          = USER_ROLES.anonymous := by
  have ht : strTruthy (some b) = true := by simp [strTruthy, hb]
  refine ⟨rfl, ?_, ?_, ?_⟩
  · exact userRole_mem_roles_foldl serverUrl oracle addrs initialRoleState (by simp [initialRoleState])
  · simp [roleEffect, hf]
  · simp [roleEffect, ht, fetchUserData, he]

/-- Witness for C8: a concrete run with an always-throwing backend, a
falsy address and a truthy address. -/
theorem c8_role_invariants_witness :
    initialRoleState.userRole = USER_ROLES.anonymous
      ∧ (runRoleEffects "https://backend" (fun _ => Except.error ())
            [none, some "0xabc"]).userRole
          ∈ [USER_ROLES.anonymous, USER_ROLES.admin, USER_ROLES.registered]
      ∧ roleEffect "https://backend" (fun _ => Except.error ()) none initialRoleState
          = initialRoleState
      ∧ (roleEffect "https://backend" (fun _ => Except.error ()) (some "0xbad")
            initialRoleState).userRole = USER_ROLES.anonymous :=
  c8_role_invariants "https://backend" (fun _ => Except.error ())
    [none, some "0xabc"] none "0xbad" initialRoleState initialRoleState ()
    rfl (by decide) rfl

/-- C9: the mainnet provider is the scaffold eth provider exactly when
that provider exists and carries a detected network, and the Infura
provider otherwise. -/
theorem c9_mainnet_provider_selection (scaffold scaffold₂ : Option ProviderObj)
    (infura p : ProviderObj) (h1 : scaffold = some p)
    (h2 : p._network.isSome = true)
    (h3 : (scaffold₂.bind fun q => q._network) = none) :
    selectMainnetProvider scaffold infura = p
      ∧ selectMainnetProvider scaffold₂ infura = infura := by
  constructor
  · simp [selectMainnetProvider, h1, h2]
  · cases hs : scaffold₂ with
    | none => simp [selectMainnetProvider]
    | some q =>
      have hq : q._network = none := by simpa [hs] using h3
      simp [selectMainnetProvider, hs, hq]

/-- Witness for C9: a scaffold provider with a detected network is
selected, and one without a detected network is passed over for the
Infura provider. -/
theorem c9_mainnet_provider_selection_witness :
    selectMainnetProvider
        (some { url := scaffoldEthUrl, _network := some { chainId := 1 } })
        { url := infuraUrlBase ++ "id0" }
      = { url := scaffoldEthUrl, _network := some { chainId := 1 } }
    ∧ selectMainnetProvider (some { url := scaffoldEthUrl, _network := none })
        { url := infuraUrlBase ++ "id0" }
      = { url := infuraUrlBase ++ "id0" } :=
  c9_mainnet_provider_selection
    (some { url := scaffoldEthUrl, _network := some { chainId := 1 } })
    (some { url := scaffoldEthUrl, _network := none })
    { url := infuraUrlBase ++ "id0" }
    { url := scaffoldEthUrl, _network := some { chainId := 1 } }
    rfl rfl rfl

/-- C10: each of flashMessage.success and flashMessage.error appends
exactly one entry, with the matching status and the given text, at the
end of the list, leaving every previously stored message and their
order unchanged. -/
theorem c10_flash_messages_append (prev : List FlashMessage) (m : String) :
    (flashMessageSuccess m prev).length = prev.length + 1
      ∧ (flashMessageSuccess m prev).take prev.length = prev
      ∧ (flashMessageSuccess m prev).getLast? = some { status := "success", text := m }
      ∧ (flashMessageError m prev).length = prev.length + 1
      ∧ (flashMessageError m prev).take prev.length = prev
      ∧ (flashMessageError m prev).getLast? = some { status := "error", text := m } := by
  refine ⟨?_, ?_, ?_, ?_, ?_, ?_⟩ <;>
    simp [flashMessageSuccess, flashMessageError, List.take_left]

end Web3App
